import Mathlib

/-!
Verification of the openclaw-helper pseudo-terminal OAuth-login bridge.

The model below is a shallow embedding of the WebSocket / pty bridge found
in the repository:

* `src/unnamed/part_002` — `setupWebSocket` / `handleOAuthLogin` (the
  upgrade router, the message handler with its start guard, the pty relay
  callbacks `shell.onData` / `shell.onExit`, the `script`-wrapper fallback
  with its `child.on('close')` handler, and the inner `input`-forwarding
  listener);
* `src/unnamed/part_001` and `src/src/index.ts` — earlier variants of the
  same handler (identical guard structure; `part_001` additionally contains
  the `if (scriptPath) ... else` fallback-selection code);
* `src/unnamed/part_000` — the `@hono/node-ws` variant whose `onMessage`
  parses without a surrounding try/catch and whose `shell.onData` sends
  without a readyState check.

JavaScript values that the handlers only test for truthiness (the `type`
and `provider` fields of a parsed message) are modelled as `Option String`,
with `none` for an absent field and the empty string standing for the
falsy string; any other JSON value that is truthy but not a supported
provider behaves exactly like an unsupported provider string, so nothing
is lost by this abstraction.  `JSON.parse` failure is the `Msg.malformed`
constructor.  The dynamic `import('node-pty')` is assumed to succeed (the
package is a declared dependency); whether `pty.spawn` itself throws is the
`ptyOk` parameter threaded through the machine.
-/

/-- Outbound frame, the `JSON.stringify`-ed objects sent on the socket:
`output` (raw text), `success` and `error` (human-readable message). -/
inductive Frame where
  | output (data : String)
  | success (message : String)
  | error (message : String)
deriving DecidableEq, Repr

/-- A received WebSocket message after `JSON.parse`: either a parse failure
(`malformed`) or an object whose `type` / `provider` / `data` fields are
destructured by the handlers.  Absent fields are `none`. -/
inductive Msg where
  | malformed
  | frame (type? : Option String) (provider? : Option String) (data : String)
deriving DecidableEq, Repr

/-- JavaScript truthiness of a destructured string field: `undefined`
(absent) and the empty string are falsy, every other string is truthy. -/
def truthy : Option String → Bool
  | none => false
  | some s => !(s == "")

/-- Command table of `handleOAuthLogin` in `part_002` (lines 78-88):
`gpt` maps to the onboard quickstart command, `qwen` to the qwen-portal
login command, anything else is unsupported. -/
def part002_resolveCommand (provider : String) : Option String :=
  if provider == "gpt" then
    some "openclaw onboard --flow quickstart --auth-choice openai-codex --skip-channels --skip-skills --skip-health --skip-daemon --no-install-daemon --skip-ui"
  else if provider == "qwen" then
    some "openclaw models auth login --provider qwen-portal --set-default"
  else
    none

/-- Command table of the handler in `src/src/index.ts` (lines 82-89) and
`part_001` (lines 95-102): `gpt` maps to the openai login command. -/
def index_resolveCommand (provider : String) : Option String :=
  if provider == "gpt" then
    some "openclaw models auth login --provider openai --set-default"
  else if provider == "qwen" then
    some "openclaw models auth login --provider qwen-portal --set-default"
  else
    none

/-- Effect of one inbound message on the outer `ws.on('message')` handler of
`part_002` (lines 59-208), parameterised by the command table so the same
definition also covers the structurally identical handlers in `part_001`
and `index.ts`.  Returns the frames sent synchronously by this handler and
`some viaPty` when a process was spawned (`viaPty = true` for the pty path,
`false` for the `script`-wrapper fallback child).

The branch structure is copied from the source: the outer guard
`if (!type && provider)` (line 65), the inner `if (!provider)` check
(lines 66-69), the unsupported-provider branch (lines 85-88), and the
spawn with its pty-failure fallback (lines 103-188).  A parse failure is
swallowed by the outer try/catch (lines 206-208). -/
def msgEffect (resolve : String → Option String) (ptyOk : Bool) :
    Msg → List Frame × Option Bool
  | Msg.malformed => ([], none)
  | Msg.frame t p _ =>
    if !truthy t && truthy p then
      if !truthy p then
        ([Frame.error "请指定模型提供商"], none)
      else
        match resolve (p.getD "") with
        | none => ([Frame.error "不支持的提供商"], none)
        | some _ => ([], some ptyOk)
    else
      ([], none)

/-- `shell.onData` relay of `part_002` (lines 117-121): the chunk is sent as
an `output` frame only when `ws.readyState === ws.OPEN`. -/
def part002_onData (wsOpen : Bool) (data : String) : List Frame :=
  if wsOpen then [Frame.output data] else []

/-- The terminal frame chosen by `shell.onExit` of `part_002`
(lines 126-135): `success` for exit code 0, otherwise an `error` frame
carrying the exit code. -/
def exitFrame (exitCode : Int) : Frame :=
  if exitCode == 0 then
    Frame.success "登录成功！"
  else
    Frame.error ("命令执行失败 (退出码: " ++ toString exitCode ++ ")")

/-- `shell.onExit` of `part_002` (lines 124-138): when the socket is still
open, send the terminal frame and schedule `ws.close()` after the fixed
1000 ms flush delay; when the socket is closed, do nothing. -/
def part002_onExit (wsOpen : Bool) (exitCode : Int) : List Frame × Option Nat :=
  if wsOpen then ([exitFrame exitCode], some 1000) else ([], none)

/-- `child.on('close')` of the `script`-wrapper fallback in `part_002`
(lines 172-187): like `onExit`, but a nonzero exit appends the pty failure
reason `，pty 启动失败: <err.message>` when `err?.message` is truthy. -/
def part002_fallback_onClose (wsOpen : Bool) (code : Int) (errMessage : String) :
    List Frame × Option Nat :=
  if wsOpen then
    (if code == 0 then
      [Frame.success "登录成功！"]
    else
      [Frame.error ("命令执行失败 (退出码: " ++ toString code ++ ")" ++
        (if errMessage == "" then "" else "，pty 启动失败: " ++ errMessage))],
     some 1000)
  else
    ([], none)

/-- The four event sources of one connection: an inbound WebSocket message,
an output chunk from the attached process, the process exit notification,
and the client closing the socket. -/
inductive Event where
  | msg (m : Msg)
  | chunk (data : String)
  | exit (code : Int)
  | sockClose
deriving DecidableEq, Repr

/-- Observable state of one `part_002` connection: socket liveness, the
frames sent so far (in order), one entry per process spawned on this
connection (`true` = pty shell, `false` = fallback child), and whether a
delayed `ws.close()` has been scheduled by an exit handler. -/
structure ConnState where
  wsOpen : Bool
  sent : List Frame
  sessions : List Bool
  closeDelayed : Bool
deriving DecidableEq, Repr

/-- State of a fresh connection, before any message. -/
def part002_init : ConnState :=
  { wsOpen := true, sent := [], sessions := [], closeDelayed := false }

/-- One step of the `part_002` connection: dispatches the event to the
corresponding handler embedded above. -/
def part002_step (ptyOk : Bool) (s : ConnState) : Event → ConnState
  | Event.msg m =>
    let eff := msgEffect part002_resolveCommand ptyOk m
    { s with
      sent := s.sent ++ eff.1,
      sessions := s.sessions ++ (match eff.2 with | some v => [v] | none => []) }
  | Event.chunk d => { s with sent := s.sent ++ part002_onData s.wsOpen d }
  | Event.exit code =>
    let r := part002_onExit s.wsOpen code
    { s with sent := s.sent ++ r.1, closeDelayed := s.closeDelayed || r.2.isSome }
  | Event.sockClose => { s with wsOpen := false }

/-- Run a `part_002` connection over a sequence of events from the fresh
state. -/
def part002_run (ptyOk : Bool) (events : List Event) : ConnState :=
  events.foldl (part002_step ptyOk) part002_init

/-- The inner `ws.on('message')` input listener registered by `part_002`
after a start (lines 191-200): a frame with `type === 'input'` is written
to the pty shell when the `shell` variable is defined (`viaPty`); in the
`script`-fallback path `shell` stays `undefined`, so the write is skipped.
Parse failures in this listener are ignored (lines 197-199). -/
def part002_inputWrite (viaPty : Bool) : Msg → List String
  | Msg.malformed => []
  | Msg.frame t _ d => if t == some "input" && viaPty then [d] else []

/-- Writes reaching the process's input stream for a sequence of inbound
messages handled by the `part_002` input listener, in arrival order. -/
def part002_inputWrites (viaPty : Bool) : List Msg → List String
  | [] => []
  | m :: rest => part002_inputWrite viaPty m ++ part002_inputWrites viaPty rest

/-- Stated from the spec's words (§4.2 round-trip property): the payloads of
the `input` frames of a message sequence, in order and undivided.  Used as
the reference against which the code's forwarding is compared. -/
def specInputPayloads : List Msg → List String
  | [] => []
  | Msg.malformed :: rest => specInputPayloads rest
  | Msg.frame t _ d :: rest =>
    (if t == some "input" then [d] else []) ++ specInputPayloads rest

/-- The three spawn strategies named by the spec (§4.1 steps 3-4):
pseudo-terminal spawn, spawn through the `script` recording wrapper, and a
plain child process with ordinary pipes. -/
inductive SpawnStrategy where
  | pty
  | wrapper
  | plainPipes
deriving DecidableEq, Repr

/-- The constant `scriptPath` of `part_001` (line 155). -/
def part001_scriptPath : String := "/usr/bin/script"

/-- Fallback selection of `part_001` (lines 162-173): `if (scriptPath)`
spawn through the wrapper `else` spawn a plain child process.  The guard
tests the truthiness of the constant string `scriptPath`. -/
def part001_fallbackChoice : SpawnStrategy :=
  if part001_scriptPath == "" then SpawnStrategy.plainPipes else SpawnStrategy.wrapper

/-- The spawn strategies `part_001` attempts, in order (lines 116-196): the
pty spawn always, and on its failure (`catch (err)`) the strategy chosen by
`part001_fallbackChoice`. -/
def part001_attempted (ptyOk : Bool) : List SpawnStrategy :=
  if ptyOk then [SpawnStrategy.pty] else [SpawnStrategy.pty, part001_fallbackChoice]

/-- The spawn strategies `part_002` attempts, in order (lines 103-188): the
pty spawn, and on its failure the `script` wrapper unconditionally — there
is no plain-pipes branch in `part_002` at all. -/
def part002_attempted (ptyOk : Bool) : List SpawnStrategy :=
  if ptyOk then [SpawnStrategy.pty] else [SpawnStrategy.pty, SpawnStrategy.wrapper]

/-- Observable state of a `part_000` connection, for the relay callbacks of
that file. -/
structure Conn0State where
  wsOpen : Bool
  sent : List Frame
deriving DecidableEq, Repr

/-- `shell.onData` of `part_000` (lines 57-59): the chunk is sent as an
`output` frame unconditionally — there is no `readyState` liveness check in
this handler. -/
def part000_onData (s : Conn0State) (data : String) : Conn0State :=
  { s with sent := s.sent ++ [Frame.output data] }

/-- Command table of `part_000` (lines 38-45), identical to the one in
`index.ts`. -/
def part000_resolveCommand (provider : String) : Option String :=
  index_resolveCommand provider

/-- The `onMessage` handler of `part_000` (lines 23-83): `JSON.parse` is
called with no surrounding try/catch (line 24), so a malformed message
makes the handler throw — modelled as `Except.error` — instead of being
ignored.  A well-formed message is checked for a truthy `provider` (there
is no outer `type` guard in this file) and dispatched through the command
table; the value is the list of frames the handler sends synchronously. -/
def part000_onMessage : Msg → Except String (List Frame)
  | Msg.malformed => Except.error "SyntaxError"
  | Msg.frame _ p _ =>
    if !truthy p then
      Except.ok [Frame.error "请指定模型提供商"]
    else
      match part000_resolveCommand (p.getD "") with
      | none => Except.ok [Frame.error "不支持的提供商"]
      | some _ => Except.ok []

/-- Decision of the transport layer on an upgrade request. -/
inductive UpgradeAction where
  | route
  | destroy
deriving DecidableEq, Repr

/-- The `server.on('upgrade')` handler of `setupWebSocket` in `part_002`
(lines 42-53) and of `index.ts` (lines 57-151): the request is routed to
`handleOAuthLogin` exactly when its pathname is `/ws/oauth-login`;
otherwise the raw socket is destroyed. -/
def upgradeHandler (pathname : String) : UpgradeAction :=
  if pathname == "/ws/oauth-login" then UpgradeAction.route else UpgradeAction.destroy

/-- Whether a frame is terminal in the sense of the wire protocol (§6):
`success` and `error` are terminal, `output` is not. -/
def isTerminal : Frame → Bool
  | Frame.output _ => false
  | Frame.success _ => true
  | Frame.error _ => true

/-- The missing-provider error frame of the inner `if (!provider)` check
(`part_002` lines 66-69). -/
def missingProviderFrame : Frame :=
  Frame.error "请指定模型提供商"

example : part002_run true [Event.msg (Msg.frame none (some "gpt") "")] =
    { wsOpen := true, sent := [], sessions := [true], closeDelayed := false } := by
  decide

example : part002_run true [Event.msg (Msg.frame (some "start") (some "gpt") "")] =
    part002_init := by decide

example : (part002_run true [Event.msg (Msg.frame none (some "zzz") "")]).sent =
    [Frame.error "不支持的提供商"] := by decide

example : part001_attempted false = [SpawnStrategy.pty, SpawnStrategy.wrapper] := by decide

example : part002_inputWrites true [Msg.frame (some "input") none "ab"] = ["ab"] := by decide

lemma truthy_none : truthy none = false := rfl

lemma step_malformed (ptyOk : Bool) (s : ConnState) :
    part002_step ptyOk s (Event.msg Msg.malformed) = s := by
  simp [part002_step, msgEffect]

/-- Claim C1 (code behavior at the failing input): the comment at
`part_002` line 64 (and the spec) says only the first connection message is
honored, but the `if (!type && provider)` guard passes for every type-less
provider-carrying message, so a second such message spawns a second
process on the same connection: after two identical start messages the
connection has two attached processes. -/
theorem c1_second_start_spawns_again :
    (part002_run true [Event.msg (Msg.frame none (some "gpt") ""),
        Event.msg (Msg.frame none (some "gpt") "")]).sessions = [true, true] ∧
    (part002_run true [Event.msg (Msg.frame none (some "gpt") ""),
        Event.msg (Msg.frame none (some "gpt") "")]).sessions.length = 2 := by
  decide

/-- Claim C2, counterexample: after a start message with the unsupported
provider `foo`, the error frame is sent but the socket is NOT closed (it is
still open and no delayed close is scheduled), and a later supported start
on the same connection still spawns a process whose output IS sent — so
neither "the socket is then closed" nor "no output frame is ever sent on
that connection" holds. -/
theorem c2_no_close_after_unsupported :
    (part002_run true [Event.msg (Msg.frame none (some "foo") "")]).wsOpen = true ∧
    (part002_run true [Event.msg (Msg.frame none (some "foo") "")]).closeDelayed = false ∧
    (part002_run true [Event.msg (Msg.frame none (some "foo") ""),
        Event.msg (Msg.frame none (some "gpt") ""),
        Event.chunk "hello"]).sent =
      [Frame.error "不支持的提供商", Frame.output "hello"] := by
  decide

/-- Claim C2 as amended: a start message whose provider is truthy but
unsupported makes the unsupported-provider error frame the first and only
frame sent, and spawns no process — but the handler merely returns: the
socket stays open and no close is scheduled. -/
theorem c2_unsupported_flow_error (p d : String)
    (h1 : truthy (some p) = true)
    (h2 : part002_resolveCommand p = none) :
    part002_run true [Event.msg (Msg.frame none (some p) d)] =
      { wsOpen := true, sent := [Frame.error "不支持的提供商"], sessions := [],
        closeDelayed := false } := by
  simp [part002_run, part002_step, msgEffect, truthy_none, h1, h2, part002_init]

/-- Witness for `c2_unsupported_flow_error` at provider `foo`. -/
theorem c2_unsupported_flow_error_witness :
    part002_run true [Event.msg (Msg.frame none (some "foo") "")] =
      { wsOpen := true, sent := [Frame.error "不支持的提供商"], sessions := [],
        closeDelayed := false } :=
  c2_unsupported_flow_error "foo" "" (by decide) (by decide)

/-- Claim C3, counterexample: the spec's start frame
`\x7b"type":"start","provider":"gpt"\x7d` is ignored by the handler — the
guard `if (!type && provider)` fails because `type` is the truthy string
`start` — so sending it as the first message leaves the connection in its
initial state: no session, no process, no frame. -/
theorem c3_start_frame_ignored :
    part002_run true [Event.msg (Msg.frame (some "start") (some "gpt") "")] =
      part002_init := by
  decide

/-- Claim C3 as amended: the session is started by the first message whose
`provider` is a supported flow id and whose `type` field is absent (or
falsy); for such a start, a process that emits output and then exits
yields an `output` frame strictly before the terminal frame. -/
theorem c3_typeless_start_streams (flowId output : String) (code : Int)
    (h1 : truthy (some flowId) = true)
    (h2 : (part002_resolveCommand flowId).isSome = true) :
    part002_run true [Event.msg (Msg.frame none (some flowId) ""),
        Event.chunk output, Event.exit code] =
      { wsOpen := true, sent := [Frame.output output, exitFrame code],
        sessions := [true], closeDelayed := true } ∧
    isTerminal (exitFrame code) = true ∧ isTerminal (Frame.output output) = false := by
  obtain ⟨c, hc⟩ := Option.isSome_iff_exists.mp h2
  refine ⟨?_, ?_, rfl⟩
  · simp [part002_run, part002_step, msgEffect, part002_onData, part002_onExit,
      truthy_none, h1, hc, part002_init]
  · cases h : (code == 0) <;> simp [exitFrame, isTerminal, h]

/-- Witness for `c3_typeless_start_streams`: the spec's own concrete
scenario — flow `qwen`, a process printing `scan QR` and exiting 0. -/
theorem c3_typeless_start_streams_witness :
    part002_run true [Event.msg (Msg.frame none (some "qwen") ""),
        Event.chunk "scan QR", Event.exit 0] =
      { wsOpen := true, sent := [Frame.output "scan QR", exitFrame 0],
        sessions := [true], closeDelayed := true } :=
  (c3_typeless_start_streams "qwen" "scan QR" 0 (by decide) (by decide)).1

/-- Claim C4: on an open socket, exit code 0 produces exactly one `success`
frame and schedules the socket close after the fixed 1000 ms flush delay;
a nonzero exit code produces exactly one `error` frame whose message
contains the exit code, with the same delayed close; and on the fallback
path the error message additionally carries the reason the pty spawn
failed. -/
theorem c4_exit_code_mapping (code : Int) (errMessage : String)
    (hc : (code == 0) = false) (he : (errMessage == "") = false) :
    part002_onExit true 0 = ([Frame.success "登录成功！"], some 1000) ∧
    part002_onExit true code =
      ([Frame.error ("命令执行失败 (退出码: " ++ toString code ++ ")")], some 1000) ∧
    (∃ pre post, part002_onExit true code =
      ([Frame.error (pre ++ toString code ++ post)], some 1000)) ∧
    part002_fallback_onClose true 0 errMessage =
      ([Frame.success "登录成功！"], some 1000) ∧
    part002_fallback_onClose true code errMessage =
      ([Frame.error ("命令执行失败 (退出码: " ++ toString code ++ ")" ++
        ("，pty 启动失败: " ++ errMessage))], some 1000) := by
  refine ⟨rfl, ?_, ⟨"命令执行失败 (退出码: ", ")", ?_⟩, ?_, ?_⟩
  · simp [part002_onExit, exitFrame, hc]
  · simp [part002_onExit, exitFrame, hc]
  · rfl
  · simp [part002_fallback_onClose, hc, he]

/-- Witness for `c4_exit_code_mapping` at exit code 1 and a concrete pty
failure reason. -/
theorem c4_exit_code_mapping_witness :
    part002_onExit true 1 =
      ([Frame.error ("命令执行失败 (退出码: " ++ toString (1 : Int) ++ ")")], some 1000) ∧
    part002_fallback_onClose true 1 "posix_spawn failed" =
      ([Frame.error ("命令执行失败 (退出码: " ++ toString (1 : Int) ++ ")" ++
        ("，pty 启动失败: " ++ "posix_spawn failed"))], some 1000) :=
  ⟨(c4_exit_code_mapping 1 "posix_spawn failed" (by decide) (by decide)).2.1,
   (c4_exit_code_mapping 1 "posix_spawn failed" (by decide) (by decide)).2.2.2.2⟩

/-- Claim C6, counterexample: when the pty spawn fails, the fallback choice
of `part_001` is the `script` wrapper no matter what — its `if (scriptPath)`
guard tests the constant non-empty string `/usr/bin/script` — and `part_002`
spawns the wrapper unconditionally, so the attempted strategy list is
exactly pty-then-wrapper and the plain-pipes strategy is never attempted. -/
theorem c6_plain_pipes_unreachable :
    part001_fallbackChoice = SpawnStrategy.wrapper ∧
    part001_attempted false = [SpawnStrategy.pty, SpawnStrategy.wrapper] ∧
    part002_attempted false = [SpawnStrategy.pty, SpawnStrategy.wrapper] ∧
    (part001_attempted false).contains SpawnStrategy.plainPipes = false := by
  decide

/-- Claim C6 as amended: the launcher attempts at most two strategies, in
order — the pty spawn first, and the `script` wrapper exactly when the pty
spawn fails; the plain-pipes strategy is attempted in neither file. -/
theorem c6_two_strategies : ∀ ptyOk : Bool,
    (part001_attempted ptyOk).head? = some SpawnStrategy.pty ∧
    (part001_attempted ptyOk).contains SpawnStrategy.wrapper = !ptyOk ∧
    (part001_attempted ptyOk).contains SpawnStrategy.plainPipes = false ∧
    (part002_attempted ptyOk).contains SpawnStrategy.plainPipes = false ∧
    part002_attempted ptyOk = part001_attempted ptyOk := by
  decide

/-- Claim C9: an upgrade request is routed to the OAuth-login handler
exactly when its pathname is `/ws/oauth-login`; for every other pathname
the raw socket is destroyed. -/
theorem c9_upgrade_fixed_path : ∀ pathname : String,
    (upgradeHandler pathname = UpgradeAction.route ↔ pathname = "/ws/oauth-login") ∧
    (upgradeHandler pathname = UpgradeAction.destroy ↔
      (pathname == "/ws/oauth-login") = false) := by
  intro pathname
  unfold upgradeHandler
  by_cases h : pathname = "/ws/oauth-login" <;> simp [h]

/-- Claim C7, counterexample: on a fallback session — a `script`-wrapper
child process is attached, but the `shell` variable the input listener
guards on (`part_002` line 194) is undefined — an `input` frame's payload
is NOT written to the process's input stream: it is silently dropped. -/
theorem c7_fallback_drops_input :
    part002_inputWrites false [Msg.frame (some "input") none "hello"] = [] ∧
    specInputPayloads [Msg.frame (some "input") none "hello"] = ["hello"] := by
  decide

/-- Claim C7 as amended: when the pty path succeeded, every `input` frame's
payload is written verbatim to the shell, in arrival order, with no
buffering, reordering or coalescing — the write sequence equals the
payload sequence of the `input` frames; when the fallback path was used,
no input is forwarded at all. -/
theorem c7_pty_forwards_inputs_in_order (msgs : List Msg) :
    part002_inputWrites true msgs = specInputPayloads msgs ∧
    part002_inputWrites false msgs = [] := by
  induction msgs with
  | nil => exact ⟨rfl, rfl⟩
  | cons m rest ih =>
    cases m with
    | malformed =>
      simpa [part002_inputWrites, part002_inputWrite, specInputPayloads] using ih
    | frame t p d =>
      refine ⟨?_, ?_⟩
      · simp [part002_inputWrites, part002_inputWrite, specInputPayloads, ih.1]
      · simp [part002_inputWrites, part002_inputWrite, ih.2]

/-- Claim C8, counterexample: the `onMessage` handler of `part_000` calls
`JSON.parse` with no surrounding try/catch (line 24), so a malformed
message makes the handler throw the parse error instead of ignoring or
logging it — the exception escapes the message callback. -/
theorem c8_part000_parse_throws :
    part000_onMessage Msg.malformed = Except.error "SyntaxError" := by
  rfl

/-- Claim C8 as amended, for the handlers that do wrap the parse in
try/catch (`index.ts`, `part_001`, `part_002`): a malformed message is
swallowed — the whole connection trace, frames, sessions and socket state
included, is exactly as if the message had never arrived. -/
theorem c8_malformed_ignored (ptyOk : Bool) (pre post : List Event) :
    part002_run ptyOk (pre ++ Event.msg Msg.malformed :: post) =
      part002_run ptyOk (pre ++ post) := by
  unfold part002_run
  rw [List.foldl_append, List.foldl_append, List.foldl_cons, step_malformed]

lemma step_chunk_closed (ptyOk : Bool) (s : ConnState) (d : String)
    (h : s.wsOpen = false) :
    part002_step ptyOk s (Event.chunk d) = s := by
  simp [part002_step, part002_onData, h]
  rw [← h]

lemma step_exit_closed (ptyOk : Bool) (s : ConnState) (code : Int)
    (h : s.wsOpen = false) :
    part002_step ptyOk s (Event.exit code) = s := by
  simp [part002_step, part002_onExit, h]
  rw [← h]

lemma run_frozen_aux (ptyOk : Bool) : ∀ (post : List Event) (s : ConnState),
    s.wsOpen = false →
    (∀ e ∈ post, (∃ d, e = Event.chunk d) ∨ ∃ c, e = Event.exit c) →
    post.foldl (part002_step ptyOk) s = s := by
  intro post
  induction post with
  | nil => intro s _ _; rfl
  | cons e rest ih =>
    intro s hws hall
    rcases hall e (List.mem_cons_self e rest) with ⟨d, rfl⟩ | ⟨c, rfl⟩
    · rw [List.foldl_cons, step_chunk_closed ptyOk s d hws]
      exact ih s hws (fun x hx => hall x (List.mem_cons_of_mem _ hx))
    · rw [List.foldl_cons, step_exit_closed ptyOk s c hws]
      exact ih s hws (fun x hx => hall x (List.mem_cons_of_mem _ hx))

/-- Claim C5 as amended, for the guarded relays of `index.ts`, `part_001`
and `part_002`: once the socket closes, later process events (output
chunks, the exit notification) change nothing — in particular no Outbound
Frame is sent after the close, because every relay send is behind a
`readyState === OPEN` check.  (`part_000`'s relay has no such check; see
the counterexample.) -/
theorem c5_no_send_after_close (ptyOk : Bool) (pre post : List Event)
    (hpost : ∀ e ∈ post, (∃ d, e = Event.chunk d) ∨ ∃ c, e = Event.exit c) :
    part002_run ptyOk (pre ++ Event.sockClose :: post) =
      part002_run ptyOk (pre ++ [Event.sockClose]) := by
  have hsplit : pre ++ Event.sockClose :: post = (pre ++ [Event.sockClose]) ++ post := by
    simp
  rw [hsplit]
  unfold part002_run
  rw [List.foldl_append]
  apply run_frozen_aux ptyOk post _ _ hpost
  rw [List.foldl_append]
  rfl

/-- Witness for `c5_no_send_after_close`: a started session whose process
emits a chunk and exits after the client disconnected sends nothing more. -/
theorem c5_no_send_after_close_witness :
    part002_run true ([Event.msg (Msg.frame none (some "gpt") "")] ++
        Event.sockClose :: [Event.chunk "late", Event.exit 0]) =
      part002_run true ([Event.msg (Msg.frame none (some "gpt") "")] ++
        [Event.sockClose]) :=
  c5_no_send_after_close true [Event.msg (Msg.frame none (some "gpt") "")]
    [Event.chunk "late", Event.exit 0]
    (by
      intro e he
      rcases List.mem_cons.mp he with rfl | he2
      · exact Or.inl ⟨"late", rfl⟩
      · rcases List.mem_cons.mp he2 with rfl | he3
        · exact Or.inr ⟨0, rfl⟩
        · exact absurd he3 (List.not_mem_nil e))

/-- Claim C5, counterexample: `shell.onData` in `part_000` (lines 57-59)
sends the chunk with no liveness check at all, so on a connection whose
socket is already observed closed the relay still performs the send — an
Outbound Frame is emitted after the close. -/
theorem c5_part000_sends_after_close :
    (part000_onData { wsOpen := false, sent := [] } "late").sent =
      [Frame.output "late"] ∧
    (part000_onData { wsOpen := false, sent := [] } "late").wsOpen = false := by
  decide

lemma exit_msg_ne_missing (r : String) :
    ("命令执行失败 (退出码: " ++ r ++ ")") ≠ "请指定模型提供商" := by
  intro hEq
  have h2 := congrArg String.length hEq
  rw [String.length_append, String.length_append] at h2
  have hA : ("命令执行失败 (退出码: ").length = 13 := by decide
  have hP : (")").length = 1 := by decide
  have hB : ("请指定模型提供商").length = 8 := by decide
  omega

lemma msgEffect_missing_not_mem (resolve : String → Option String) (ptyOk : Bool)
    (m : Msg) : missingProviderFrame ∉ (msgEffect resolve ptyOk m).1 := by
  cases m with
  | malformed => simp [msgEffect]
  | frame t p d =>
    simp only [msgEffect]
    split
    · next hg =>
      have hp : truthy p = true := ((Bool.and_eq_true _ _).mp hg).2
      rw [hp]
      simp only [Bool.not_true, Bool.false_eq_true, if_false]
      split
      · show missingProviderFrame ∉ [Frame.error "不支持的提供商"]
        decide
      · simp
    · simp

lemma step_missing_not_mem (ptyOk : Bool) (s : ConnState) (e : Event)
    (h : missingProviderFrame ∉ s.sent) :
    missingProviderFrame ∉ (part002_step ptyOk s e).sent := by
  intro hmem
  cases e with
  | msg m =>
    simp only [part002_step] at hmem
    rcases List.mem_append.mp hmem with h1 | h2
    · exact h h1
    · exact msgEffect_missing_not_mem part002_resolveCommand ptyOk m h2
  | chunk d =>
    simp only [part002_step] at hmem
    rcases List.mem_append.mp hmem with h1 | h2
    · exact h h1
    · unfold part002_onData at h2
      split at h2
      · rcases List.mem_singleton.mp h2 with h3
        exact Frame.noConfusion h3
      · exact absurd h2 (List.not_mem_nil _)
  | exit code =>
    simp only [part002_step] at hmem
    rcases List.mem_append.mp hmem with h1 | h2
    · exact h h1
    · unfold part002_onExit at h2
      split at h2
      · have h3 := List.mem_singleton.mp h2
        unfold exitFrame at h3
        split at h3
        · exact Frame.noConfusion h3
        · have h4 : "请指定模型提供商" =
              "命令执行失败 (退出码: " ++ toString code ++ ")" :=
            Frame.error.inj h3
          exact exit_msg_ne_missing (toString code) h4.symm
      · exact absurd h2 (List.not_mem_nil _)
  | sockClose => exact h hmem

lemma run_missing_not_mem_aux (ptyOk : Bool) : ∀ (events : List Event) (s : ConnState),
    missingProviderFrame ∉ s.sent →
    missingProviderFrame ∉ (events.foldl (part002_step ptyOk) s).sent := by
  intro events
  induction events with
  | nil => intro s h; exact h
  | cons e rest ih =>
    intro s h
    rw [List.foldl_cons]
    exact ih _ (step_missing_not_mem ptyOk s e h)

/-- Claim C10: the missing-provider error frame (`请指定模型提供商`) is
never sent — the outer `if (!type && provider)` guard already requires a
truthy `provider` before the inner `if (!provider)` check runs, so that
branch is dead for every inbound message (first conjunct, for any command
table, covering the handlers in `index.ts`, `part_001` and `part_002`),
and consequently the frame never appears on the wire in any run of the
connection (second conjunct). -/
theorem c10_missing_provider_never_sent :
    ∀ (resolve : String → Option String) (ptyOk : Bool) (m : Msg)
      (events : List Event),
      ((msgEffect resolve ptyOk m).1).contains missingProviderFrame = false ∧
      ((part002_run ptyOk events).sent).contains missingProviderFrame = false := by
  intro resolve ptyOk m events
  have hinit : missingProviderFrame ∉ part002_init.sent := by
    simp [part002_init]
  constructor
  · simp [List.contains, List.elem_eq_mem, msgEffect_missing_not_mem resolve ptyOk m]
  · have hrun := run_missing_not_mem_aux ptyOk events part002_init hinit
    simp only [part002_run]
    simp [List.contains, List.elem_eq_mem, hrun]
